import Mathlib

/-!
# Verification of the Pi Network transfer bot (`pi_transfer_script.py`)

Shallow embedding of the transfer bot's data model and operations into Lean.
Network I/O is modelled by explicit response environments: each remote call's
outcome (a network-level error, an HTTP response with a code and a parsed
body, …) is a parameter of the embedded function, and the function returns
both the Python function's return value and the observable effects the claims
talk about (which requests were issued, how many polls, how many completion
calls, how long was slept).

Python floats are IEEE-754 doubles, i.e. exact rational numbers; every float
appearing in the script is embedded as the exact rational value of its double.
Comparisons between doubles (`>=` on balances) are exact comparisons of those
rationals, so the embedding is faithful on all double-valued inputs.
-/

namespace PiBot

/-- Outcome of one HTTP request made through `requests`:
either a network-level error (`requests.RequestException`: timeout,
connection refused, …) or an HTTP response with a status code and a parsed
JSON body of type `α`. -/
inductive NetResponse (α : Type) where
  | networkError
  | http (code : Nat) (body : α)
deriving DecidableEq

/-- Python truthiness of an optional string: `not x` is true when the value
is absent (`None`) or the empty string. -/
def pyFalsyStrOpt : Option String → Bool
  | none => true
  | some s => s = ""

/-! ## Configuration and construction (`__init__`, `_validate_configuration`) -/

/-- The exact rational value of the double `1650.0` (`self.TRANSFER_AMOUNT`). -/
def TRANSFER_AMOUNT : ℚ := 1650

/-- The exact rational value of the double `0.01` (`self.TRANSACTION_FEE`):
`0.01` is not representable, its double is `5764607523034235 / 2^59`. -/
def TRANSACTION_FEE : ℚ := 5764607523034235 / 576460752303423488

/-- `self.REQUIRED_BALANCE = self.TRANSFER_AMOUNT + self.TRANSACTION_FEE`,
evaluated in double arithmetic: the exact sum `1650 + TRANSACTION_FEE` is not
a double and rounds (to nearest) to `7256820723786711 / 2^42`, which is also
exactly the double nearest the literal `1650.01`. -/
def REQUIRED_BALANCE : ℚ := 7256820723786711 / 4398046511104

/-- The double produced by parsing the literal `1650.01` (e.g. a JSON balance
of `1650.01` after `float(...)`). -/
def double_1650_01 : ℚ := 7256820723786711 / 4398046511104

/-- The environment variables read by `__init__`: `None` when the variable is
absent from the environment, `some s` when present with value `s` (possibly
empty). -/
structure EnvConfig where
  pi_access_token : Option String
  allowed_recipient_address : Option String
  pi_app_id : Option String
  pi_app_secret : Option String
deriving DecidableEq

/-- `os.getenv(name, default)`: the default replaces an absent variable but
not a present-and-empty one. -/
def getenvD (v : Option String) (default : String) : String := v.getD default

/-- The bot state the embedded operations depend on. -/
structure Bot where
  access_token : String
  allowed_recipient : String
  app_id : String
  app_secret : String
deriving DecidableEq

/-- `PiNetworkTransferBot.__init__` restricted to configuration loading and
`_validate_configuration`: reads each variable with its test default, then
raises `ValueError` (modelled as `.error`) when a loaded value is empty
(Python falsiness) or the recipient is shorter than 20 characters. -/
def initBot (cfg : EnvConfig) : Except String Bot :=
  let access_token := getenvD cfg.pi_access_token "test_access_token_here"
  let allowed_recipient := getenvD cfg.allowed_recipient_address "test_wallet_address_here"
  let app_id := getenvD cfg.pi_app_id "test_app_id_here"
  let app_secret := getenvD cfg.pi_app_secret "test_app_secret_here"
  if access_token = "" then
    .error "PI_ACCESS_TOKEN environment variable is required"
  else if allowed_recipient = "" then
    .error "ALLOWED_RECIPIENT_ADDRESS environment variable is required"
  else if app_id = "" then
    .error "PI_APP_ID environment variable is required"
  else if app_secret = "" then
    .error "PI_APP_SECRET environment variable is required"
  else if allowed_recipient.length < 20 then
    .error "Invalid recipient address format. Must be a valid Pi wallet address"
  else
    .ok ⟨access_token, allowed_recipient, app_id, app_secret⟩

/-- The `__main__` entry guard of the script: it exits with status 1 before
constructing the bot when any required environment variable is absent or
empty (`not os.getenv(var)`). -/
def mainGuardRejects (cfg : EnvConfig) : Bool :=
  pyFalsyStrOpt cfg.pi_access_token || pyFalsyStrOpt cfg.allowed_recipient_address ||
    pyFalsyStrOpt cfg.pi_app_id || pyFalsyStrOpt cfg.pi_app_secret

/-! ## Recipient guard (`_validate_recipient_address`) -/

/-- `_validate_recipient_address`: raises `ValueError` (modelled as `.error`)
when the recipient differs from the allowed address (exact, case-sensitive
string comparison), otherwise returns `True`. -/
def validate_recipient_address (bot : Bot) (recipient : String) : Except String Bool :=
  if recipient ≠ bot.allowed_recipient then
    .error ("Transfer denied: Recipient " ++ recipient ++
      " is not the allowed address " ++ bot.allowed_recipient)
  else
    .ok true

/-! ## Platform client operations

Each operation takes the outcome of its HTTP request as an explicit
`NetResponse` and returns exactly what the Python function returns: `None`
(here `none`) or `False` on a network-level error or a non-success status
code, the parsed body otherwise. JSON booleans are embedded as `Bool` and a
possibly-absent JSON field as an `Option`; `dict.get` with its default is
`Option.getD`. -/

/-- Body of `GET /v2/me`. Fields the script reads; either may be absent. -/
structure UserData where
  uid : Option String
  wallet_address : Option String
deriving DecidableEq

/-- `get_user_info`: `some body` on HTTP 200, `none` on any other status code
and on `requests.RequestException` (both logged, both returned as `None`). -/
def get_user_info : NetResponse UserData → Option UserData
  | .networkError => none
  | .http code body => if code = 200 then some body else none

/-- Body of `GET /v2/wallets/{address}/balance`. The script only reads the
`available` field (`balance_data.get('available', 0)`); an absent field and a
body that is an empty dict (falsy, so `get_available_balance` skips it) both
produce `0.0`, so both are embedded as `available = none`. -/
structure BalanceData where
  available : Option ℚ
deriving DecidableEq

/-- `get_wallet_balance`: returns `None` immediately when no wallet address
is stored, otherwise `some body` on HTTP 200 and `none` on any other status
code or a network-level error. -/
def get_wallet_balance (wallet_address : Option String) :
    NetResponse BalanceData → Option BalanceData
  | .networkError => none
  | .http code body =>
    match wallet_address with
    | none => none
    | some _ => if code = 200 then some body else none

/-- `get_available_balance`: the `available` field of a successful balance
read, `0.0` when the read failed or the field is absent. -/
def get_available_balance (wallet_address : Option String)
    (resp : NetResponse BalanceData) : ℚ :=
  match get_wallet_balance wallet_address resp with
  | some body => body.available.getD 0
  | none => 0

/-- Nested `status` record of a platform payment object, as read by
`execute_transfer` and `confirm_unlock`. Every field may be absent. -/
structure StatusRec where
  transaction_verified : Option Bool
  developer_completed : Option Bool
  cancelled : Option Bool
  user_cancelled : Option Bool
deriving DecidableEq

/-- The empty dict `{}` used as default for `payment_status.get('status', {})`. -/
def emptyStatus : StatusRec := ⟨none, none, none, none⟩

/-- Python truthiness of `dict.get(key)` on a boolean-valued field: absent
(`None`) is falsy, a present boolean is itself. -/
def pyTruthy (v : Option Bool) : Bool := v.getD false

/-- One element of the `payments` list of `GET /v2/payments?status=pending`. -/
structure PendingPayment where
  identifier : Option String
  status : Option StatusRec
deriving DecidableEq

/-- Body of `GET /v2/payments?status=pending`; the script reads
`payments_data.get('payments', [])`. -/
structure PaymentsBody where
  payments : Option (List PendingPayment)
deriving DecidableEq

/-- `get_pending_payments`: the `payments` list (default `[]`) on HTTP 200,
`none` on any other status code or a network-level error. -/
def get_pending_payments : NetResponse PaymentsBody → Option (List PendingPayment)
  | .networkError => none
  | .http code body => if code = 200 then some (body.payments.getD []) else none

/-- `_complete_payment`: `response.status_code == 200`, and `False` on a
network-level error. -/
def complete_payment_result : NetResponse Unit → Bool
  | .networkError => false
  | .http code _ => code = 200

/-- `approve_payment`: `True` exactly on HTTP 200, `False` otherwise
(non-200 or network-level error). -/
def approve_payment_result : NetResponse Unit → Bool
  | .networkError => false
  | .http code _ => code = 200

/-- Body of `POST /v2/payments`; the script reads
`payment_response.get('identifier')`. -/
structure CreateBody where
  identifier : Option String
deriving DecidableEq

/-- Body of `GET /v2/payments/{id}`; the script reads
`payment_status.get('status', {})` (and `transaction.txid`, which is only
forwarded to `complete_payment` and discarded there). -/
structure PaymentRecord where
  status : Option StatusRec
deriving DecidableEq

/-- `get_payment_status`: `some body` on HTTP 200, `none` otherwise. -/
def get_payment_status : NetResponse PaymentRecord → Option PaymentRecord
  | .networkError => none
  | .http code body => if code = 200 then some body else none

/-- `create_payment`, with its observable effect: the result is the payment
id (or `none` on any failure), the flag records whether the
`POST /v2/payments` request was issued at all. `_validate_recipient_address`
runs first inside the `try`; its `ValueError` is caught by the
`except Exception` handler, which returns `None` — before any request. -/
def create_payment (bot : Bot) (recipient : String)
    (resp : NetResponse CreateBody) : Option String × Bool :=
  match validate_recipient_address bot recipient with
  | .error _ => (none, false)
  | .ok _ =>
    match resp with
    | .networkError => (none, true)
    | .http code body =>
      if code = 200 ∨ code = 201 then (body.identifier, true) else (none, true)

/-! ## Unlock-confirmation sweep (`confirm_unlock`) -/

/-- The condition under which `confirm_unlock` attempts to complete a pending
payment: `not payment.get('status', {}).get('developer_completed', True)`.
A missing `status` record yields `{}`, whose lookup yields the default
`True`; a missing `developer_completed` field yields `True`; so the sweep
acts exactly on payments whose status is present and explicitly carries
`developer_completed = false`. -/
def unlockEligible (p : PendingPayment) : Bool :=
  !((p.status.getD emptyStatus).developer_completed.getD true)

/-- The list of payment ids `confirm_unlock` calls `_complete_payment` on,
in order. The result of each completion call only selects a log line and
does not affect the sweep, so the sweep's effect is a pure function of the
pending list. -/
def unlockSweep : List PendingPayment → List (Option String)
  | [] => []
  | p :: rest =>
    if unlockEligible p then p.identifier :: unlockSweep rest
    else unlockSweep rest

/-- `confirm_unlock`: returns `True` when the pending-payment listing failed
(`None` is falsy) or was empty, and otherwise processes each pending payment
and returns `True`; the second component is the list of payment ids on which
`_complete_payment` was invoked. -/
def confirm_unlock (resp : NetResponse PaymentsBody) : Bool × List (Option String) :=
  match get_pending_payments resp with
  | none => (true, [])
  | some [] => (true, [])
  | some ps => (true, unlockSweep ps)

/-! ## Payment workflow (`execute_transfer`) -/

/-- Response environment of one `execute_transfer` invocation: the outcome
of the create and approve requests, the outcome of the `i`-th status poll
(0-based), and the outcome of the `k`-th completion request (0-based). -/
structure TransferEnv where
  createResp : NetResponse CreateBody
  approveResp : NetResponse Unit
  statusResp : Nat → NetResponse PaymentRecord
  completeResp : Nat → NetResponse Unit

/-- Observable outcome of one `execute_transfer` invocation. -/
structure TransferResult where
  success : Bool
  createIssued : Bool
  statusPolls : Nat
  completeCalls : Nat
  sleepUnits : Nat
deriving DecidableEq

/-- The monitoring loop of `execute_transfer` (`while attempt < max_attempts`),
with `fuel = max_attempts - attempt` and accumulated counts of status polls,
completion calls and slept time units. Each iteration polls the payment
status; on a parsed body it reads `status` (default `{}`): if
`transaction_verified` is truthy and `developer_completed` falsy it attempts
completion, returning success if the completion call succeeds; a failed
completion falls through to the cancellation check on the same status and,
absent cancellation, to the next iteration. `cancelled` or `user_cancelled`
truthy returns failure. Otherwise the loop sleeps 10 units and re-polls;
exhausting the 60 attempts returns failure (timeout). -/
def pollLoop (env : TransferEnv) :
    Nat → Nat → Nat → Nat → Bool × Nat × Nat × Nat
  | 0, polls, completes, sleeps => (false, polls, completes, sleeps)
  | fuel + 1, polls, completes, sleeps =>
    match get_payment_status (env.statusResp polls) with
    | some record =>
      let st := record.status.getD emptyStatus
      if pyTruthy st.transaction_verified && !pyTruthy st.developer_completed then
        if complete_payment_result (env.completeResp completes) then
          (true, polls + 1, completes + 1, sleeps)
        else if pyTruthy st.cancelled || pyTruthy st.user_cancelled then
          (false, polls + 1, completes + 1, sleeps)
        else
          pollLoop env fuel (polls + 1) (completes + 1) (sleeps + 10)
      else if pyTruthy st.cancelled || pyTruthy st.user_cancelled then
        (false, polls + 1, completes, sleeps)
      else
        pollLoop env fuel (polls + 1) completes (sleeps + 10)
    | none =>
      pollLoop env fuel (polls + 1) completes (sleeps + 10)

/-- `max_attempts = 60` in `execute_transfer`. -/
def max_attempts : Nat := 60

/-- `execute_transfer`: create the payment (recipient guard inside; amount,
memo and metadata only populate the request body and do not affect control
flow), fail if no truthy payment id came back, approve it, fail if approval
failed, then run the bounded status-polling loop. -/
def execute_transfer (bot : Bot) (recipient : String) (env : TransferEnv) :
    TransferResult :=
  let cp := create_payment bot recipient env.createResp
  if pyFalsyStrOpt cp.1 then
    ⟨false, cp.2, 0, 0, 0⟩
  else if !approve_payment_result env.approveResp then
    ⟨false, cp.2, 0, 0, 0⟩
  else
    let r := pollLoop env max_attempts 0 0 0
    ⟨r.1, cp.2, r.2.1, r.2.2.1, r.2.2.2⟩

/-- What one status-poll outcome reports to the loop: `true` exactly when the
poll parsed a body whose `status` record makes
`transaction_verified` truthy and `developer_completed` falsy — the guard of
the completion branch. -/
def reportsVerifiedUncompleted (resp : NetResponse PaymentRecord) : Bool :=
  match get_payment_status resp with
  | none => false
  | some record =>
    let st := record.status.getD emptyStatus
    pyTruthy st.transaction_verified && !pyTruthy st.developer_completed

/-- `true` exactly when the poll parsed a body whose `status` record makes
`cancelled` or `user_cancelled` truthy — the guard of the cancellation
branch. -/
def reportsCancelled (resp : NetResponse PaymentRecord) : Bool :=
  match get_payment_status resp with
  | none => false
  | some record =>
    let st := record.status.getD emptyStatus
    pyTruthy st.cancelled || pyTruthy st.user_cancelled

/-! ## Balance check and transfer trigger (`check_and_transfer`) -/

/-- Response environment of one `check_and_transfer` cycle. -/
structure CycleEnv where
  wallet_address : Option String
  userInfoResp : NetResponse UserData
  pendingResp : NetResponse PaymentsBody
  balanceResp : NetResponse BalanceData
  transfer : TransferEnv

/-- Observable outcome of one `check_and_transfer` cycle. -/
structure CycleResult where
  result : Bool
  workflowInvoked : Bool
  unlockCompletes : List (Option String)
deriving DecidableEq

/-- The wallet address in effect after the authentication step of
`check_and_transfer`: the stored one if present; otherwise the one returned
by `get_user_info`, with `none` standing for the early `return False` when
authentication fails (distinguished below from an authenticated user whose
record lacks a wallet address). -/
def effectiveWallet (env : CycleEnv) : Option (Option String) :=
  match env.wallet_address with
  | some w => some (some w)
  | none =>
    match get_user_info env.userInfoResp with
    | none => none
    | some u => some u.wallet_address

/-- `check_and_transfer`: authenticate if no wallet address is stored
(failure returns `False` at once), run the best-effort unlock sweep
(result ignored), fetch the available balance, and invoke
`execute_transfer(self.allowed_recipient, self.TRANSFER_AMOUNT)` exactly
when `available_balance >= self.REQUIRED_BALANCE`, returning its result;
otherwise return `False`. -/
def check_and_transfer (bot : Bot) (env : CycleEnv) : CycleResult :=
  match effectiveWallet env with
  | none => ⟨false, false, []⟩
  | some wallet =>
    let unlock := confirm_unlock env.pendingResp
    let available := get_available_balance wallet env.balanceResp
    if available ≥ REQUIRED_BALANCE then
      let t := execute_transfer bot bot.allowed_recipient env.transfer
      ⟨t.success, true, unlock.2⟩
    else
      ⟨false, false, unlock.2⟩

/-! ## Scheduler loop (`run_monitoring_loop`) -/

/-- `is_target_time_reached`: `datetime.now(timezone.utc) >= TARGET_DATETIME`,
with instants embedded as rational second counts. -/
def is_target_time_reached (now target : ℚ) : Bool := now ≥ target

/-- One iteration's inputs to the monitoring loop: the wall-clock time read
at the top of the iteration and the result of that iteration's
`check_and_transfer` call (which catches its own exceptions and returns a
boolean). -/
structure LoopCycle where
  now : ℚ
  ct : Bool
deriving DecidableEq

/-- Observable outcome of the monitoring loop. -/
structure LoopRun where
  attempts : Nat
  sleeps : List ℚ
  success : Bool
deriving DecidableEq

/-- The `while True` body of `run_monitoring_loop`, unrolled over the list of
iteration inputs (the list ending is only reached if the loop is still
running then). If the target time is reached the loop makes one final
`check_and_transfer` attempt and breaks whether or not it succeeded. Before
the target time, a successful attempt breaks; otherwise the loop sleeps 300
seconds when more than 300 seconds remain until the target and 60 seconds
otherwise, then continues. -/
def monitoring_loop (target : ℚ) : List LoopCycle → LoopRun
  | [] => ⟨0, [], false⟩
  | c :: rest =>
    if is_target_time_reached c.now target then
      ⟨1, [], c.ct⟩
    else if c.ct then
      ⟨1, [], true⟩
    else
      let s : ℚ := if target - c.now > 300 then 300 else 60
      let r := monitoring_loop target rest
      ⟨r.attempts + 1, s :: r.sleeps, r.success⟩

/-- `run_monitoring_loop`: authenticate once; on failure return without
entering the loop (`none`), otherwise run the loop. -/
def run_monitoring_loop (authResp : NetResponse UserData) (target : ℚ)
    (cycles : List LoopCycle) : Option LoopRun :=
  match get_user_info authResp with
  | none => none
  | some _ => some (monitoring_loop target cycles)

/-- A pending payment whose status record is present and explicitly carries
`developer_completed = false`. -/
def explicitlyUncompleted (p : PendingPayment) : Bool :=
  match p.status with
  | some ⟨_, some false, _, _⟩ => true
  | _ => false

/-! ## Concrete fixtures

Closed sample inputs used by witness and counterexample theorems. -/

/-- A bot state with an arbitrary allowed recipient. -/
def sampleBot : Bot := ⟨"tok", "addr1", "app", "sec"⟩

/-- Status body of a payment that is neither verified nor cancelled. -/
def pendingRecord : PaymentRecord := ⟨some ⟨some false, none, none, none⟩⟩

/-- Status body of a payment that is verified and not developer-completed. -/
def verifiedRecord : PaymentRecord := ⟨some ⟨some true, some false, none, none⟩⟩

/-- Status body of a cancelled payment. -/
def cancelledRecord : PaymentRecord := ⟨some ⟨none, none, some true, none⟩⟩

/-- A successful `POST /v2/payments` response. -/
def createOk : NetResponse CreateBody := .http 200 ⟨some "pay1"⟩

/-- A successful `POST /v2/payments/{id}/approve` response. -/
def approveOk : NetResponse Unit := .http 200 ()

/-- A transfer run in which every status poll reports a pending payment. -/
def allPendingEnv : TransferEnv :=
  ⟨createOk, approveOk, fun _ => .http 200 pendingRecord, fun _ => .http 200 ()⟩

/-- A transfer run in which every status poll reports the payment verified
and not developer-completed, and every completion request fails with an
HTTP 500. -/
def completionFailEnv : TransferEnv :=
  ⟨createOk, approveOk, fun _ => .http 200 verifiedRecord, fun _ => .http 500 ()⟩

/-- A transfer run in which the first two polls report a pending payment and
every later poll reports it cancelled. -/
def cancelThirdEnv : TransferEnv :=
  ⟨createOk, approveOk, fun i => .http 200 (if i < 2 then pendingRecord else cancelledRecord),
    fun _ => .http 200 ()⟩

/-- A cycle whose balance read returns exactly the double for `1650.01`. -/
def thresholdCycleEnv : CycleEnv :=
  ⟨some "wallet1", .http 200 ⟨some "uid1", some "wallet1"⟩, .http 200 ⟨some []⟩,
    .http 200 ⟨some double_1650_01⟩, allPendingEnv⟩

/-- A cycle whose balance read fails with an HTTP 500. -/
def failedBalanceCycleEnv : CycleEnv :=
  ⟨some "wallet1", .http 200 ⟨some "uid1", some "wallet1"⟩, .http 200 ⟨some []⟩,
    .http 500 ⟨none⟩, allPendingEnv⟩

/-! # Helper lemmas -/

/-- The sweep condition of `confirm_unlock` fires exactly on payments whose
status record explicitly carries `developer_completed = false`. -/
theorem unlockEligible_eq_explicitlyUncompleted (p : PendingPayment) :
    unlockEligible p = explicitlyUncompleted p := by
  obtain ⟨id, st⟩ := p
  cases st with
  | none => rfl
  | some r =>
    obtain ⟨tv, dc, ca, uc⟩ := r
    cases dc with
    | none => rfl
    | some b => cases b <;> rfl

/-- The unlock sweep completes exactly the explicitly uncompleted payments,
in order. -/
theorem unlockSweep_eq_filter (l : List PendingPayment) :
    unlockSweep l = (l.filter explicitlyUncompleted).map (fun p => p.identifier) := by
  induction l with
  | nil => rfl
  | cons p rest ih =>
    rw [unlockSweep, unlockEligible_eq_explicitlyUncompleted, List.filter_cons]
    by_cases h : explicitlyUncompleted p = true
    · simp [h, ih]
    · simp [h, ih]

/-- Componentwise equality of the quadruples returned by `pollLoop`. -/
theorem prod4_eq {b b' : Bool} {x x' y y' z z' : Nat} (hb : b = b') (hx : x = x')
    (hy : y = y') (hz : z = z') : (b, x, y, z) = (b', x', y', z') := by
  subst hb; subst hx; subst hy; subst hz; rfl

/-- `reportsVerifiedUncompleted` on a parsed 200 response is the completion
branch's guard over that body. -/
theorem reportsVU_eval (body : PaymentRecord) :
    reportsVerifiedUncompleted (NetResponse.http 200 body) =
      (pyTruthy (body.status.getD emptyStatus).transaction_verified &&
        !pyTruthy (body.status.getD emptyStatus).developer_completed) := rfl

/-- `reportsCancelled` on a parsed 200 response is the cancellation branch's
guard over that body. -/
theorem reportsCancelled_eval (body : PaymentRecord) :
    reportsCancelled (NetResponse.http 200 body) =
      (pyTruthy (body.status.getD emptyStatus).cancelled ||
        pyTruthy (body.status.getD emptyStatus).user_cancelled) := rfl

/-- A poll that reports neither verified-uncompleted nor cancelled makes the
loop sleep 10 units and continue with no completion call. -/
theorem pollLoop_step_neutral (env : TransferEnv) (p c z fuel : Nat)
    (h1 : reportsVerifiedUncompleted (env.statusResp p) = false)
    (h2 : reportsCancelled (env.statusResp p) = false) :
    pollLoop env (fuel + 1) p c z = pollLoop env fuel (p + 1) c (z + 10) := by
  simp only [pollLoop]
  cases hr : env.statusResp p with
  | networkError => simp [get_payment_status]
  | http code body =>
    rw [hr] at h1 h2
    by_cases hc : code = 200
    · subst hc
      rw [reportsVU_eval] at h1
      rw [reportsCancelled_eval] at h2
      simp [get_payment_status, h1, h2]
    · simp [get_payment_status, hc]

/-- A verified-and-uncompleted poll whose completion call fails, on a
non-cancelled status, makes the loop sleep and continue — consuming one
completion call. -/
theorem pollLoop_step_retry (env : TransferEnv) (p c z fuel : Nat)
    (h1 : reportsVerifiedUncompleted (env.statusResp p) = true)
    (h2 : reportsCancelled (env.statusResp p) = false)
    (h3 : complete_payment_result (env.completeResp c) = false) :
    pollLoop env (fuel + 1) p c z = pollLoop env fuel (p + 1) (c + 1) (z + 10) := by
  simp only [pollLoop]
  cases hr : env.statusResp p with
  | networkError => rw [hr] at h1; simp [reportsVerifiedUncompleted, get_payment_status] at h1
  | http code body =>
    rw [hr] at h1 h2
    by_cases hc : code = 200
    · subst hc
      rw [reportsVU_eval] at h1
      rw [reportsCancelled_eval] at h2
      simp [get_payment_status, h1, h2, h3]
    · rw [reportsVerifiedUncompleted] at h1
      simp [get_payment_status, hc] at h1

/-- A cancelled, non-verified-uncompleted poll aborts the loop with failure
and no completion call. -/
theorem pollLoop_step_cancel (env : TransferEnv) (p c z fuel : Nat)
    (h1 : reportsVerifiedUncompleted (env.statusResp p) = false)
    (h2 : reportsCancelled (env.statusResp p) = true) :
    pollLoop env (fuel + 1) p c z = (false, p + 1, c, z) := by
  simp only [pollLoop]
  cases hr : env.statusResp p with
  | networkError => rw [hr] at h2; simp [reportsCancelled, get_payment_status] at h2
  | http code body =>
    rw [hr] at h1 h2
    by_cases hc : code = 200
    · subst hc
      rw [reportsVU_eval] at h1
      rw [reportsCancelled_eval] at h2
      simp [get_payment_status, h1, h2]
    · rw [reportsCancelled] at h2
      simp [get_payment_status, hc] at h2

/-- When every poll is neutral the loop runs out of fuel: one poll and one
10-unit sleep per remaining attempt, no completion call, failure result. -/
theorem pollLoop_timeout (env : TransferEnv)
    (hpoll : ∀ i, reportsVerifiedUncompleted (env.statusResp i) = false ∧
      reportsCancelled (env.statusResp i) = false) :
    ∀ fuel p c z, pollLoop env fuel p c z = (false, p + fuel, c, z + 10 * fuel) := by
  intro fuel
  induction fuel with
  | zero => intro p c z; simp [pollLoop]
  | succ fuel ih =>
    intro p c z
    rw [pollLoop_step_neutral env p c z fuel (hpoll p).1 (hpoll p).2, ih]
    exact prod4_eq rfl (by omega) rfl (by omega)

/-- When every poll reports verified-and-uncompleted (never cancelled) and
every completion call fails, the loop attempts one completion per remaining
poll and still times out. -/
theorem pollLoop_retry_exhausts (env : TransferEnv)
    (hpoll : ∀ i, reportsVerifiedUncompleted (env.statusResp i) = true ∧
      reportsCancelled (env.statusResp i) = false)
    (hcomp : ∀ k, complete_payment_result (env.completeResp k) = false) :
    ∀ fuel p c z, pollLoop env fuel p c z = (false, p + fuel, c + fuel, z + 10 * fuel) := by
  intro fuel
  induction fuel with
  | zero => intro p c z; simp [pollLoop]
  | succ fuel ih =>
    intro p c z
    rw [pollLoop_step_retry env p c z fuel (hpoll p).1 (hpoll p).2 (hcomp c), ih]
    exact prod4_eq rfl (by omega) (by omega) (by omega)

/-- When some poll `j` reports cancellation and no poll up to `j` reports
verified-and-uncompleted, the loop returns failure without ever calling
completion — whether it reaches poll `j` or runs out of fuel first. -/
theorem pollLoop_cancel_no_complete (env : TransferEnv) (j : Nat)
    (hj : reportsCancelled (env.statusResp j) = true)
    (hbefore : ∀ i, i ≤ j → reportsVerifiedUncompleted (env.statusResp i) = false) :
    ∀ fuel p c z, p ≤ j →
      (pollLoop env fuel p c z).1 = false ∧ (pollLoop env fuel p c z).2.2.1 = c := by
  intro fuel
  induction fuel with
  | zero => intro p c z _; simp [pollLoop]
  | succ fuel ih =>
    intro p c z hp
    by_cases hcanc : reportsCancelled (env.statusResp p) = true
    · rw [pollLoop_step_cancel env p c z fuel (hbefore p hp) hcanc]
      exact ⟨rfl, rfl⟩
    · have hpj : p ≠ j := fun h => hcanc (h ▸ hj)
      rw [pollLoop_step_neutral env p c z fuel (hbefore p hp)
        (Bool.not_eq_true _ ▸ eq_false_of_ne_true hcanc)]
      exact ih (p + 1) c (z + 10) (by omega)

/-! # Claims -/

/-- C1: for every recipient different from the configured allowed recipient
(exact, case-sensitive string comparison), the recipient guard raises, and
`create_payment` returns failure (`None`) without issuing any
payment-creation request to the platform. -/
theorem guard_rejects_and_no_create_request (bot : Bot) (r : String)
    (resp : NetResponse CreateBody) (h : r ≠ bot.allowed_recipient) :
    (∃ msg, validate_recipient_address bot r = .error msg) ∧
      create_payment bot r resp = (none, false) := by
  constructor
  · exact ⟨_, by rw [validate_recipient_address, if_pos h]⟩
  · simp [create_payment, validate_recipient_address, h]

/-- Witness for C1 at a concrete rejected recipient. -/
theorem guard_rejects_and_no_create_request_witness :
    "evil" ≠ sampleBot.allowed_recipient ∧
      ((∃ msg, validate_recipient_address sampleBot "evil" = .error msg) ∧
        create_payment sampleBot "evil" createOk = (none, false)) :=
  ⟨by decide, guard_rejects_and_no_create_request sampleBot "evil" createOk (by decide)⟩

/-- C6: in a monitoring-loop iteration whose wall-clock time is at or past
the target, the loop makes exactly one final `check_and_transfer` attempt
and terminates whether or not it succeeds: no sleep is performed and no
further cycle is started. -/
theorem deadline_cycle_terminates (target : ℚ) (c : LoopCycle)
    (rest : List LoopCycle) (h : c.now ≥ target) :
    monitoring_loop target (c :: rest) = ⟨1, [], c.ct⟩ := by
  simp [monitoring_loop, is_target_time_reached, h]

/-- Witness for C6 at the deadline instant with a failing final attempt. -/
theorem deadline_cycle_terminates_witness :
    (0 : ℚ) ≥ 0 ∧ monitoring_loop 0 [⟨0, false⟩] = ⟨1, [], false⟩ :=
  ⟨le_refl 0, deadline_cycle_terminates 0 ⟨0, false⟩ [] (le_refl 0)⟩

/-- C7 counterexample: a network-level error and an application-level HTTP
500 produce the very same return value (`None`, resp. `False`) on the
identity lookup, the status lookup and the completion call, so the caller
cannot distinguish the two failure kinds. -/
theorem network_and_application_failures_indistinguishable :
    get_user_info .networkError = get_user_info (.http 500 ⟨none, none⟩) ∧
      get_user_info .networkError = none ∧
      get_payment_status .networkError = get_payment_status (.http 500 ⟨none⟩) ∧
      get_payment_status .networkError = none ∧
      complete_payment_result .networkError = complete_payment_result (.http 500 ()) ∧
      complete_payment_result .networkError = false := by
  decide

/-- C7 amended: every platform-client operation returns an explicit failure
value (`None`, resp. `False`) to its caller instead of raising, both on a
network-level error and on a non-success HTTP response — but the two failure
kinds are collapsed to the same value. -/
theorem client_failures_explicit (code : Nat) (h200 : code ≠ 200)
    (h201 : code ≠ 201) (u : UserData) (b : BalanceData) (pb : PaymentsBody)
    (pr : PaymentRecord) (cb : CreateBody) (w : String) (bot : Bot) :
    get_user_info (.http code u) = none ∧ get_user_info .networkError = none ∧
      get_wallet_balance (some w) (.http code b) = none ∧
      get_wallet_balance (some w) .networkError = none ∧
      get_pending_payments (.http code pb) = none ∧
      get_pending_payments .networkError = none ∧
      get_payment_status (.http code pr) = none ∧
      get_payment_status .networkError = none ∧
      approve_payment_result (.http code ()) = false ∧
      approve_payment_result .networkError = false ∧
      complete_payment_result (.http code ()) = false ∧
      complete_payment_result .networkError = false ∧
      (create_payment bot bot.allowed_recipient (.http code cb)).1 = none ∧
      (create_payment bot bot.allowed_recipient .networkError).1 = none := by
  simp [get_user_info, get_wallet_balance, get_pending_payments, get_payment_status,
    approve_payment_result, complete_payment_result, create_payment,
    validate_recipient_address, h200, h201]

/-- Witness for C7 amended at HTTP status 500. -/
theorem client_failures_explicit_witness :
    (500 : Nat) ≠ 200 ∧ (500 : Nat) ≠ 201 ∧
      (get_user_info (.http 500 ⟨none, none⟩) = none ∧
        get_user_info .networkError = none ∧
        get_wallet_balance (some "w") (.http 500 ⟨none⟩) = none ∧
        get_wallet_balance (some "w") .networkError = none ∧
        get_pending_payments (.http 500 ⟨none⟩) = none ∧
        get_pending_payments .networkError = none ∧
        get_payment_status (.http 500 ⟨none⟩) = none ∧
        get_payment_status .networkError = none ∧
        approve_payment_result (.http 500 ()) = false ∧
        approve_payment_result .networkError = false ∧
        complete_payment_result (.http 500 ()) = false ∧
        complete_payment_result .networkError = false ∧
        (create_payment sampleBot sampleBot.allowed_recipient (.http 500 ⟨none⟩)).1 = none ∧
        (create_payment sampleBot sampleBot.allowed_recipient .networkError).1 = none) :=
  ⟨by decide, by decide,
    client_failures_explicit 500 (by decide) (by decide) ⟨none, none⟩ ⟨none⟩ ⟨none⟩
      ⟨none⟩ ⟨none⟩ "w" sampleBot⟩

/-- C8 counterexample: with every required environment variable absent,
construction succeeds — `os.getenv` substitutes the built-in test defaults
and `_validate_configuration` passes. -/
theorem construction_succeeds_with_absent_config :
    initBot ⟨none, none, none, none⟩ =
      .ok ⟨"test_access_token_here", "test_wallet_address_here",
        "test_app_id_here", "test_app_secret_here"⟩ := by
  rfl

/-- C8 amended: construction fails exactly when a loaded value — the
environment value if present, its test default otherwise — is empty, or the
loaded recipient address is shorter than 20 characters; since the defaults
are non-empty and long enough, an absent variable never fails construction.
The script's separate `__main__` entry guard is what rejects a startup with
a required variable absent (or empty), exiting before construction. -/
theorem construction_failure_characterization (cfg : EnvConfig) :
    ((initBot cfg).isOk = true ↔
      (getenvD cfg.pi_access_token "test_access_token_here" ≠ "" ∧
        getenvD cfg.allowed_recipient_address "test_wallet_address_here" ≠ "" ∧
        getenvD cfg.pi_app_id "test_app_id_here" ≠ "" ∧
        getenvD cfg.pi_app_secret "test_app_secret_here" ≠ "" ∧
        ¬(getenvD cfg.allowed_recipient_address "test_wallet_address_here").length < 20)) ∧
    (mainGuardRejects cfg = true ↔
      (pyFalsyStrOpt cfg.pi_access_token = true ∨
        pyFalsyStrOpt cfg.allowed_recipient_address = true ∨
        pyFalsyStrOpt cfg.pi_app_id = true ∨
        pyFalsyStrOpt cfg.pi_app_secret = true)) := by
  constructor
  · simp only [initBot]
    split_ifs with h1 h2 h3 h4 h5 <;> simp_all [Except.isOk, Except.toBool]
  · simp [mainGuardRejects, Bool.or_eq_true, or_assoc]

/-- C10: the unlock-confirmation sweep attempts a completion call exactly
for the pending payments whose status record is present and explicitly
reports `developer_completed` as false; a payment with the status record or
the flag missing is treated as already completed and skipped. -/
theorem confirm_unlock_completes_explicit_only (resp : NetResponse PaymentsBody) :
    (confirm_unlock resp).2 =
      (((get_pending_payments resp).getD []).filter explicitlyUncompleted).map
        (fun p => p.identifier) := by
  unfold confirm_unlock
  cases h : get_pending_payments resp with
  | none => simp
  | some ps =>
    cases ps with
    | nil => simp
    | cons p rest => simpa using unlockSweep_eq_filter (p :: rest)

/-- C3: when no status poll reports the payment verified-and-uncompleted and
none reports it cancelled, `execute_transfer` (with creation and approval
succeeding) polls the status exactly 60 times, sleeping 10 units after each
poll (600 units total, so there is no 61st poll), makes no completion call,
and returns failure (timeout). -/
theorem execute_transfer_times_out_after_60_polls (bot : Bot) (r : String)
    (env : TransferEnv)
    (hcreate : pyFalsyStrOpt (create_payment bot r env.createResp).1 = false)
    (happrove : approve_payment_result env.approveResp = true)
    (hpoll : ∀ i, reportsVerifiedUncompleted (env.statusResp i) = false ∧
      reportsCancelled (env.statusResp i) = false) :
    execute_transfer bot r env =
      ⟨false, (create_payment bot r env.createResp).2, 60, 0, 600⟩ := by
  unfold execute_transfer
  rw [pollLoop_timeout env hpoll]
  simp [hcreate, happrove, max_attempts]

/-- Witness for C3: a run whose every poll reports a pending payment. -/
theorem execute_transfer_times_out_after_60_polls_witness :
    pyFalsyStrOpt (create_payment sampleBot sampleBot.allowed_recipient
        allPendingEnv.createResp).1 = false ∧
      approve_payment_result allPendingEnv.approveResp = true ∧
      execute_transfer sampleBot sampleBot.allowed_recipient allPendingEnv =
        ⟨false, (create_payment sampleBot sampleBot.allowed_recipient
          allPendingEnv.createResp).2, 60, 0, 600⟩ :=
  ⟨by decide, by decide,
    execute_transfer_times_out_after_60_polls sampleBot sampleBot.allowed_recipient
      allPendingEnv (by decide) (by decide) (fun _ => ⟨rfl, rfl⟩)⟩

/-- C2 counterexample: in a run where every status poll reports the payment
verified and not developer-completed and every completion request fails,
`execute_transfer` makes 60 `completePayment` calls — one per poll, all
within the same polling loop — refuting "at most one `completePayment` call
per `execute_transfer` invocation". -/
theorem completion_retried_within_loop_counterexample :
    reportsVerifiedUncompleted (completionFailEnv.statusResp 0) = true ∧
      complete_payment_result (completionFailEnv.completeResp 0) = false ∧
      (execute_transfer sampleBot sampleBot.allowed_recipient
        completionFailEnv).completeCalls = 60 ∧
      ¬((execute_transfer sampleBot sampleBot.allowed_recipient
        completionFailEnv).completeCalls ≤ 1) := by
  refine ⟨rfl, rfl, ?_, ?_⟩ <;> decide

/-- C2 amended: a failed completion call does not end the polling loop and
is not deferred to the next workflow invocation — the loop keeps polling
within the same `execute_transfer` invocation and attempts `completePayment`
again on every subsequent poll that still reports verified-and-not-completed:
with every poll verified-uncompleted and every completion failing, the
invocation makes one completion attempt per poll (60 in total) and returns
timeout failure. -/
theorem completion_retried_every_verified_poll (bot : Bot) (r : String)
    (env : TransferEnv)
    (hcreate : pyFalsyStrOpt (create_payment bot r env.createResp).1 = false)
    (happrove : approve_payment_result env.approveResp = true)
    (hpoll : ∀ i, reportsVerifiedUncompleted (env.statusResp i) = true ∧
      reportsCancelled (env.statusResp i) = false)
    (hcomp : ∀ k, complete_payment_result (env.completeResp k) = false) :
    execute_transfer bot r env =
      ⟨false, (create_payment bot r env.createResp).2, 60, 60, 600⟩ := by
  unfold execute_transfer
  rw [pollLoop_retry_exhausts env hpoll hcomp]
  simp [hcreate, happrove, max_attempts]

/-- Witness for C2 amended: every poll verified-uncompleted, every
completion request failing with HTTP 500. -/
theorem completion_retried_every_verified_poll_witness :
    pyFalsyStrOpt (create_payment sampleBot sampleBot.allowed_recipient
        completionFailEnv.createResp).1 = false ∧
      approve_payment_result completionFailEnv.approveResp = true ∧
      execute_transfer sampleBot sampleBot.allowed_recipient completionFailEnv =
        ⟨false, (create_payment sampleBot sampleBot.allowed_recipient
          completionFailEnv.createResp).2, 60, 60, 600⟩ :=
  ⟨by decide, by decide,
    completion_retried_every_verified_poll sampleBot sampleBot.allowed_recipient
      completionFailEnv (by decide) (by decide) (fun _ => ⟨rfl, rfl⟩) (fun _ => rfl)⟩

/-- C5: when some status poll reports the payment cancelled (or
user-cancelled) and no poll up to and including it reports
verified-and-uncompleted, `execute_transfer` returns failure and issues no
`completePayment` call — whatever happened at creation and approval. -/
theorem cancellation_aborts_without_completion (bot : Bot) (r : String)
    (env : TransferEnv) (j : Nat)
    (hj : reportsCancelled (env.statusResp j) = true)
    (hbefore : ∀ i, i ≤ j → reportsVerifiedUncompleted (env.statusResp i) = false) :
    (execute_transfer bot r env).success = false ∧
      (execute_transfer bot r env).completeCalls = 0 := by
  unfold execute_transfer
  by_cases h1 : pyFalsyStrOpt (create_payment bot r env.createResp).1
  · simp [h1]
  · by_cases h2 : approve_payment_result env.approveResp
    · simpa [h1, h2, max_attempts] using
        pollLoop_cancel_no_complete env j hj hbefore 60 0 0 0 (Nat.zero_le j)
    · simp [h1, h2]

/-- Witness for C5: two pending polls, then a cancelled poll. -/
theorem cancellation_aborts_without_completion_witness :
    reportsCancelled (cancelThirdEnv.statusResp 2) = true ∧
      (∀ i, i ≤ 2 → reportsVerifiedUncompleted (cancelThirdEnv.statusResp i) = false) ∧
      ((execute_transfer sampleBot sampleBot.allowed_recipient cancelThirdEnv).success =
        false ∧
        (execute_transfer sampleBot sampleBot.allowed_recipient
          cancelThirdEnv).completeCalls = 0) :=
  ⟨by decide, by decide,
    cancellation_aborts_without_completion sampleBot sampleBot.allowed_recipient
      cancelThirdEnv 2 (by decide) (by decide)⟩

/-- C4: once the authentication step of `check_and_transfer` has passed, the
payment workflow is invoked exactly when the fetched available balance is at
least `REQUIRED_BALANCE = TRANSFER_AMOUNT + TRANSACTION_FEE` (the double
`1650.0 + 0.01`); and the double for a balance of `1650.01` meets that bound,
while every balance strictly below the bound leaves the workflow uninvoked. -/
theorem balance_gate_controls_workflow (bot : Bot) (env : CycleEnv)
    (w : Option String) (hw : effectiveWallet env = some w) :
    ((check_and_transfer bot env).workflowInvoked = true ↔
      get_available_balance w env.balanceResp ≥ REQUIRED_BALANCE) ∧
      double_1650_01 ≥ REQUIRED_BALANCE := by
  constructor
  · unfold check_and_transfer
    rw [hw]
    by_cases hb : get_available_balance w env.balanceResp ≥ REQUIRED_BALANCE
    · simp [hb]
    · simp [hb]
  · exact le_refl _

/-- Witness for C4: a cycle whose balance read returns exactly the double
for `1650.01`; the workflow is invoked. -/
theorem balance_gate_controls_workflow_witness :
    effectiveWallet thresholdCycleEnv = some (some "wallet1") ∧
      (((check_and_transfer sampleBot thresholdCycleEnv).workflowInvoked = true ↔
        get_available_balance (some "wallet1") thresholdCycleEnv.balanceResp ≥
          REQUIRED_BALANCE) ∧
        double_1650_01 ≥ REQUIRED_BALANCE) :=
  ⟨rfl, balance_gate_controls_workflow sampleBot thresholdCycleEnv (some "wallet1") rfl⟩

/-- C9: when the wallet-balance lookup fails for any reason — no wallet
address, a network error, or a non-200 response — `get_available_balance`
returns `0.0`, and `check_and_transfer` treats the cycle as having
insufficient balance: it returns `False` and does not invoke the payment
workflow. -/
theorem failed_balance_read_means_no_transfer (bot : Bot) (env : CycleEnv)
    (w : Option String) (hw : effectiveWallet env = some w)
    (hfail : get_wallet_balance w env.balanceResp = none) :
    get_available_balance w env.balanceResp = 0 ∧
      (check_and_transfer bot env).result = false ∧
      (check_and_transfer bot env).workflowInvoked = false := by
  have havail : get_available_balance w env.balanceResp = 0 := by
    unfold get_available_balance
    rw [hfail]
  have hlt : ¬(get_available_balance w env.balanceResp ≥ REQUIRED_BALANCE) := by
    rw [havail]
    norm_num [REQUIRED_BALANCE]
  refine ⟨havail, ?_, ?_⟩ <;>
    · unfold check_and_transfer
      rw [hw]
      simp [hlt]

/-- Witness for C9: the balance endpoint answers HTTP 500. -/
theorem failed_balance_read_means_no_transfer_witness :
    effectiveWallet failedBalanceCycleEnv = some (some "wallet1") ∧
      get_wallet_balance (some "wallet1") failedBalanceCycleEnv.balanceResp = none ∧
      (get_available_balance (some "wallet1") failedBalanceCycleEnv.balanceResp = 0 ∧
        (check_and_transfer sampleBot failedBalanceCycleEnv).result = false ∧
        (check_and_transfer sampleBot failedBalanceCycleEnv).workflowInvoked = false) :=
  ⟨rfl, rfl,
    failed_balance_read_means_no_transfer sampleBot failedBalanceCycleEnv
      (some "wallet1") rfl rfl⟩

end PiBot
